import Mathlib

/-!
Shallow embedding of `stream_gelf.go` from the gozix-zap repository:
the `GelfStreamZapFactory` adapter that configures a zap logging core
with GELF field names and GELF severity codes, driven by a viper
configuration tree.  The relevant parts of the external libraries
(spf13/viper, uber-go/zap) are embedded as well, since the adapter's
observable behaviour flows through them.
-/

namespace GozixZap

/-! ## Viper configuration model

A viper configuration is modelled as a finite association list from
dot-separated key paths to values.  `IsSet`, `GetString` and `GetBool`
follow viper's semantics: a missing key yields the zero value, and
`GetBool`/`GetString` coerce between strings and booleans the way
`spf13/cast` does. -/

inductive ConfValue where
  | str (s : String)
  | boolean (b : Bool)
deriving DecidableEq, Repr

structure Viper where
  entries : List (String × ConfValue)
deriving DecidableEq, Repr

def Viper.IsSet (c : Viper) (k : String) : Bool :=
  (c.entries.lookup k).isSome

/-- Go's `cast.ToBool` on a string: the strings accepted by `strconv.ParseBool`
parse to their boolean value; every other string yields `false`
(viper's `GetBool` swallows the cast error and returns the zero value). -/
def castStrToBool (s : String) : Bool :=
  ["1", "t", "T", "true", "TRUE", "True"].contains s

def Viper.GetBool (c : Viper) (k : String) : Bool :=
  match c.entries.lookup k with
  | some (ConfValue.boolean b) => b
  | some (ConfValue.str s) => castStrToBool s
  | none => false

def Viper.GetString (c : Viper) (k : String) : String :=
  match c.entries.lookup k with
  | some (ConfValue.str s) => s
  | some (ConfValue.boolean b) => if b then "true" else "false"
  | none => ""

/-! ## zapcore levels and the GELF severity encoder

`zapcore.Level` is an `int8`; the named constants are Debug = -1 through
Fatal = 5.  We model the level as an `Int`. -/

def DebugLevel : Int := -1
def InfoLevel : Int := 0
def WarnLevel : Int := 1
def ErrorLevel : Int := 2
def DPanicLevel : Int := 3
def PanicLevel : Int := 4
def FatalLevel : Int := 5

/-- The Go `gelfLevel` constants `EmergencyGelfLvl = 0` … `DebugGelfLvl = 7`
are plain integers; we use their numeric values directly. -/
def EmergencyGelfLvl : Int := 0
def ErrorGelfLvl : Int := 3
def WarningGelfLvl : Int := 4
def InformationalGelfLvl : Int := 6
def DebugGelfLvl : Int := 7

/-- The Go map `lvlRelations : map[zapcore.Level]gelfLevel`.  Indexing a
Go map at a key that is absent yields the zero value of the value type,
hence the final `else 0` branch. -/
def lvlRelations (level : Int) : Int :=
  if level = DebugLevel then DebugGelfLvl
  else if level = InfoLevel then InformationalGelfLvl
  else if level = WarnLevel then WarningGelfLvl
  else if level = ErrorLevel then ErrorGelfLvl
  else if level = DPanicLevel then EmergencyGelfLvl
  else if level = PanicLevel then EmergencyGelfLvl
  else if level = FatalLevel then EmergencyGelfLvl
  else 0

/-- A primitive value appended to a `zapcore.PrimitiveArrayEncoder`. -/
inductive Primitive where
  | int (i : Int)
  | str (s : String)
deriving DecidableEq, Repr

/-- The custom level encoder: `encoder.AppendInt(int(lvlRelations[level]))`.
The `PrimitiveArrayEncoder` is modelled by the list of primitives
appended so far. -/
def gelfLvlEncoder (level : Int) (encoder : List Primitive) : List Primitive :=
  encoder ++ [Primitive.int (lvlRelations level)]

/-! ## zap encoder configuration -/

/-- Tags for the `zapcore.LevelEncoder` values occurring in this development,
identified by provenance.  The behaviour of `gelf` is the function
`gelfLvlEncoder` above. -/
inductive LevelEncoderTag where
  | lowercase  -- zapcore.LowercaseLevelEncoder
  | capitalColor  -- zapcore.CapitalColorLevelEncoder (dev profile)
  | gelf  -- gelfLvlEncoder
deriving DecidableEq, Repr

inductive TimeEncoderTag where
  | epoch  -- zapcore.EpochTimeEncoder (seconds since Unix epoch)
  | iso8601  -- zapcore.ISO8601TimeEncoder (dev profile)
deriving DecidableEq, Repr

inductive DurationEncoderTag where
  | seconds  -- zapcore.SecondsDurationEncoder
  | stringDur  -- zapcore.StringDurationEncoder (dev profile)
deriving DecidableEq, Repr

inductive CallerEncoderTag where
  | short  -- zapcore.ShortCallerEncoder
deriving DecidableEq, Repr

/-- Embeds `zapcore.OmitKey = ""`: setting a key field to it omits the field. -/
def OmitKey : String := ""

structure EncoderConfig where
  TimeKey : String
  LevelKey : String
  NameKey : String
  CallerKey : String
  FunctionKey : String
  MessageKey : String
  StacktraceKey : String
  EncodeLevel : LevelEncoderTag
  EncodeTime : TimeEncoderTag
  EncodeDuration : DurationEncoderTag
  EncodeCaller : CallerEncoderTag
deriving DecidableEq, Repr

/-- Embeds `zap.NewProductionEncoderConfig()` (fully overwritten by the adapter,
embedded for fidelity of the intermediate state). -/
def NewProductionEncoderConfig : EncoderConfig :=
  { TimeKey := "ts", LevelKey := "level", NameKey := "logger",
    CallerKey := "caller", FunctionKey := OmitKey, MessageKey := "msg",
    StacktraceKey := "stacktrace",
    EncodeLevel := LevelEncoderTag.lowercase,
    EncodeTime := TimeEncoderTag.epoch,
    EncodeDuration := DurationEncoderTag.seconds,
    EncodeCaller := CallerEncoderTag.short }

/-- Embeds `zap.NewDevelopmentEncoderConfig()`. -/
def NewDevelopmentEncoderConfig : EncoderConfig :=
  { TimeKey := "T", LevelKey := "L", NameKey := "N",
    CallerKey := "C", FunctionKey := OmitKey, MessageKey := "M",
    StacktraceKey := "S",
    EncodeLevel := LevelEncoderTag.capitalColor,
    EncodeTime := TimeEncoderTag.iso8601,
    EncodeDuration := DurationEncoderTag.stringDur,
    EncodeCaller := CallerEncoderTag.short }

/-- Embeds `getGelfEncoderConfig()` from `stream_gelf.go`. -/
def getGelfEncoderConfig : EncoderConfig :=
  { TimeKey := "timestamp", LevelKey := "level", NameKey := "_logger",
    CallerKey := "_caller", FunctionKey := OmitKey,
    MessageKey := "short_message", StacktraceKey := "full_message",
    EncodeLevel := LevelEncoderTag.lowercase,
    EncodeTime := TimeEncoderTag.epoch,
    EncodeDuration := DurationEncoderTag.seconds,
    EncodeCaller := CallerEncoderTag.short }

/-! ## zap.Config and its Build -/

/-- Embeds `zap.Config`.  Its `InitialFields` is a Go `map[string]interface{}`;
the zero value of a map type is the nil map, modelled as `none`,
distinct from an (allocated) empty map `some []`.  Writing to a nil map
panics.  The profile constructors leave `InitialFields` nil. -/
structure ZapConfig where
  Level : Int
  Development : Bool
  Encoding : String
  EncoderConfig : EncoderConfig
  OutputPaths : List String
  ErrorOutputPaths : List String
  DisableCaller : Bool
  DisableStacktrace : Bool
  InitialFields : Option (List (String × String))
deriving DecidableEq, Repr

/-- Embeds `zap.NewProductionConfig()`. -/
def NewProductionConfig : ZapConfig :=
  { Level := InfoLevel, Development := false, Encoding := "json",
    EncoderConfig := NewProductionEncoderConfig,
    OutputPaths := ["stderr"], ErrorOutputPaths := ["stderr"],
    DisableCaller := false, DisableStacktrace := false,
    InitialFields := none }

/-- Embeds `zap.NewDevelopmentConfig()`. -/
def NewDevelopmentConfig : ZapConfig :=
  { Level := DebugLevel, Development := true, Encoding := "console",
    EncoderConfig := NewDevelopmentEncoderConfig,
    OutputPaths := ["stderr"], ErrorOutputPaths := ["stderr"],
    DisableCaller := false, DisableStacktrace := false,
    InitialFields := none }

/-- Embeds the `fmt` verb `%q` on a string (for strings needing no escape sequences,
which covers every level name reaching it here). -/
def goQuote (s : String) : String := "\"" ++ s ++ "\""

/-- Embeds `zapcore.Level.unmarshalText`: the exact-match step of level
parsing. -/
def unmarshalLevelText (s : String) : Option Int :=
  if s = "debug" ∨ s = "DEBUG" then some DebugLevel
  else if s = "info" ∨ s = "INFO" ∨ s = "" then some InfoLevel
  else if s = "warn" ∨ s = "WARN" then some WarnLevel
  else if s = "error" ∨ s = "ERROR" then some ErrorLevel
  else if s = "dpanic" ∨ s = "DPANIC" then some DPanicLevel
  else if s = "panic" ∨ s = "PANIC" then some PanicLevel
  else if s = "fatal" ∨ s = "FATAL" then some FatalLevel
  else none

/-- Embeds the `bytes.ToLower` step of level parsing: ASCII case
folding, character by character (level names are ASCII). -/
def goToLower (s : String) : String :=
  String.mk (s.data.map Char.toLower)

/-- Embeds `zap.ParseAtomicLevel`: the method `zapcore.Level.UnmarshalText` tries the text
as given and then lowercased; on failure the error is
`unrecognized level: %q`.  The atomic wrapper only stores the level, so
the result is the level itself. -/
def ParseAtomicLevel (s : String) : Except String Int :=
  match unmarshalLevelText s with
  | some l => Except.ok l
  | none =>
    match unmarshalLevelText (goToLower s) with
    | some l => Except.ok l
    | none => Except.error ("unrecognized level: " ++ goQuote s)

/-- The observable state of the built logger / its core: the encoder in
force, the minimum level, the constant initial fields, and the
caller/stacktrace options (`logger.Core()` together with the logger
options derived from the config). -/
structure Core where
  Encoding : String
  EncoderConfig : EncoderConfig
  Level : Int
  InitialFields : List (String × String)
  DisableCaller : Bool
  DisableStacktrace : Bool
deriving DecidableEq, Repr

/-- The encoder names registered with zap (`zapcore` registers
`"console"` and `"json"`; the repository registers no others). -/
def registeredEncoders : List String := ["console", "json"]

/-- Embeds `zap.Config.Build` followed by `logger.Core()`.  `buildEncoder`
fails for an empty or unregistered encoding name; the sinks are always
`"stderr"` (which always opens) and the level is always set by the
profile constructors, so no other failure arises for the configs the
adapter assembles.  `buildOptions` turns `InitialFields` into constant
fields on the core (reading a nil map is legal and yields no fields). -/
def ZapConfig.Build (c : ZapConfig) : Except String Core :=
  if c.Encoding = "" then
    Except.error "no encoder name given"
  else if registeredEncoders.contains c.Encoding then
    Except.ok
      { Encoding := c.Encoding, EncoderConfig := c.EncoderConfig,
        Level := c.Level, InitialFields := c.InitialFields.getD [],
        DisableCaller := c.DisableCaller,
        DisableStacktrace := c.DisableStacktrace }
  else
    Except.error ("no encoder registered for name " ++ goQuote c.Encoding)

/-! ## GelfStreamZapFactory.New -/

/-- The outcome of a Go function that may return a value, return an
error, or panic. -/
inductive NewResult where
  | ok (core : Core)
  | error (msg : String)
  | panicked (msg : String)
deriving DecidableEq, Repr

/-- Embeds `strings.Split(path, ".")[0]`: Go's `strings.Split` never
returns an empty slice (splitting `""` yields `[""]`), so index 0 is
total and is the prefix of `path` before the first `.` (all of `path`
when it has no `.`). -/
def rootSegment (path : String) : String :=
  String.mk (path.data.takeWhile (fun c => c ≠ '.'))

/-- Embeds `GelfStreamZapFactory.Name()`. -/
def GelfStreamZapFactoryName : String := "gelf_stream"

/-- The failure-free prefix of `GelfStreamZapFactory.New` (lines 43–75):
profile selection, forcing encoding/encoder config, the encoding
override, the gelf level encoder, and the stacktrace and caller keys. -/
def newLoggerConf (conf : Viper) (path : String) : ZapConfig :=
  let rootPath := rootSegment path
  let loggerConf :=
    if conf.IsSet (rootPath ++ ".development") &&
        conf.GetBool (rootPath ++ ".development") then
      NewDevelopmentConfig
    else
      NewProductionConfig
  let loggerConf := { loggerConf with
    Encoding := "json", EncoderConfig := getGelfEncoderConfig }
  let loggerConf :=
    if conf.IsSet (path ++ ".encoding") then
      { loggerConf with Encoding := conf.GetString (path ++ ".encoding") }
    else loggerConf
  let loggerConf := { loggerConf with
    EncoderConfig :=
      { loggerConf.EncoderConfig with EncodeLevel := LevelEncoderTag.gelf } }
  let loggerConf :=
    if conf.IsSet (rootPath ++ ".stacktrace") then
      { loggerConf with
        DisableStacktrace := conf.GetString (rootPath ++ ".stacktrace") == "false" }
    else loggerConf
  let loggerConf :=
    if conf.IsSet (rootPath ++ ".caller") then
      { loggerConf with DisableCaller := !conf.GetBool (rootPath ++ ".caller") }
    else loggerConf
  loggerConf

/-- Lines 86–102 of `New`: the `app.version` initial field and the final
build.  `loggerConf.InitialFields["version"] = v` on the nil map left by
the profile constructors is a Go runtime panic
(`assignment to entry in nil map`). -/
def newFinish (conf : Viper) (loggerConf : ZapConfig) : NewResult :=
  let afterVersion : Except String ZapConfig :=
    if conf.IsSet "app.version" then
      match loggerConf.InitialFields with
      | none => Except.error "assignment to entry in nil map"
      | some m =>
        Except.ok { loggerConf with
          InitialFields :=
            some ((m.filter (fun p => p.1 ≠ "version")) ++
              [("version", conf.GetString "app.version")]) }
    else
      Except.ok loggerConf
  match afterVersion with
  | Except.error msg => NewResult.panicked msg
  | Except.ok loggerConf =>
    match loggerConf.Build with
    | Except.error e => NewResult.error ("failed to build logger: " ++ e)
    | Except.ok core => NewResult.ok core

/-- Embeds `GelfStreamZapFactory.New(conf, path)`. -/
def GelfStreamZapFactoryNew (conf : Viper) (path : String) : NewResult :=
  let loggerConf := newLoggerConf conf path
  if conf.IsSet (path ++ ".level") then
    match ParseAtomicLevel (conf.GetString (path ++ ".level")) with
    | Except.error e =>
      NewResult.error
        ("cannot parse log level " ++ conf.GetString (path ++ ".level") ++
          ": " ++ e)
    | Except.ok lvl => newFinish conf { loggerConf with Level := lvl }
  else
    newFinish conf loggerConf

/-- The encoder configuration every successfully built core carries:
the GELF field-name table with the GELF severity encoder forced in. -/
def gelfFinalEncoderConfig : EncoderConfig :=
  { getGelfEncoderConfig with EncodeLevel := LevelEncoderTag.gelf }

/-- A configuration whose only key is `app.version` (the scenario of
§8's `app.version = "1.2.3"` example). -/
def confWithVersion : Viper :=
  ⟨[("app.version", ConfValue.str "1.2.3")]⟩

/-- An otherwise fully valid configuration that also sets
`app.version`: a parseable level, a registered encoding, boolean
caller — nothing that the spec admits as a failure condition. -/
def confValidWithVersion : Viper :=
  ⟨[("zap.cores.gelf.level", ConfValue.str "info"),
    ("zap.cores.gelf.encoding", ConfValue.str "json"),
    ("zap.caller", ConfValue.boolean true),
    ("app.version", ConfValue.str "0.1.0")]⟩

/-- The core a default successful build produces: production profile,
forced `"json"` encoding, the GELF encoder configuration, and no keys
overriding anything. -/
def defaultGelfCore : Core :=
  { Encoding := "json", EncoderConfig := gelfFinalEncoderConfig,
    Level := InfoLevel, InitialFields := [], DisableCaller := false,
    DisableStacktrace := false }

theorem build_ok (c : ZapConfig) (core : Core) (h : c.Build = Except.ok core) :
    core = { Encoding := c.Encoding, EncoderConfig := c.EncoderConfig,
             Level := c.Level, InitialFields := c.InitialFields.getD [],
             DisableCaller := c.DisableCaller,
             DisableStacktrace := c.DisableStacktrace } := by
  unfold ZapConfig.Build at h
  split at h
  · simp at h
  · split at h
    · simp only [Except.ok.injEq] at h
      exact h.symm
    · simp at h

theorem newFinish_ok (conf : Viper) (lc : ZapConfig) (core : Core)
    (h : newFinish conf lc = NewResult.ok core) :
    core.Encoding = lc.Encoding ∧ core.EncoderConfig = lc.EncoderConfig ∧
    core.Level = lc.Level ∧ core.DisableCaller = lc.DisableCaller ∧
    core.DisableStacktrace = lc.DisableStacktrace := by
  unfold newFinish at h
  by_cases hv : conf.IsSet "app.version" = true
  · rw [if_pos hv] at h
    cases hif : lc.InitialFields with
    | none => rw [hif] at h; simp at h
    | some m =>
      rw [hif] at h
      dsimp only at h
      split at h
      · simp at h
      · rename_i c heq
        simp only [NewResult.ok.injEq] at h
        subst h
        rw [build_ok _ _ heq]
        exact ⟨rfl, rfl, rfl, rfl, rfl⟩
  · rw [if_neg hv] at h
    dsimp only at h
    split at h
    · simp at h
    · rename_i c heq
      simp only [NewResult.ok.injEq] at h
      subst h
      rw [build_ok _ _ heq]
      exact ⟨rfl, rfl, rfl, rfl, rfl⟩

theorem new_ok_core (conf : Viper) (path : String) (core : Core)
    (h : GelfStreamZapFactoryNew conf path = NewResult.ok core) :
    core.Encoding = (newLoggerConf conf path).Encoding ∧
    core.EncoderConfig = (newLoggerConf conf path).EncoderConfig ∧
    core.DisableCaller = (newLoggerConf conf path).DisableCaller ∧
    core.DisableStacktrace = (newLoggerConf conf path).DisableStacktrace := by
  unfold GelfStreamZapFactoryNew at h
  dsimp only at h
  split at h
  · split at h
    · simp at h
    · have t := newFinish_ok _ _ _ h
      exact ⟨t.1, t.2.1, t.2.2.2.1, t.2.2.2.2⟩
  · have t := newFinish_ok _ _ _ h
    exact ⟨t.1, t.2.1, t.2.2.2.1, t.2.2.2.2⟩

theorem newLoggerConf_EncoderConfig (conf : Viper) (path : String) :
    (newLoggerConf conf path).EncoderConfig = gelfFinalEncoderConfig := by
  unfold newLoggerConf
  dsimp only
  split <;> split <;> split <;> split <;> rfl

theorem newLoggerConf_Encoding (conf : Viper) (path : String) :
    (newLoggerConf conf path).Encoding =
      (if conf.IsSet (path ++ ".encoding") then
        conf.GetString (path ++ ".encoding")
      else "json") := by
  unfold newLoggerConf
  dsimp only
  split <;> split <;> split <;> split <;> simp_all

theorem newLoggerConf_DisableStacktrace (conf : Viper) (path : String) :
    (newLoggerConf conf path).DisableStacktrace =
      (if conf.IsSet (rootSegment path ++ ".stacktrace") then
        conf.GetString (rootSegment path ++ ".stacktrace") == "false"
      else false) := by
  unfold newLoggerConf
  dsimp only
  split <;> split <;> split <;> split <;>
    simp_all [NewDevelopmentConfig, NewProductionConfig]

theorem newLoggerConf_DisableCaller (conf : Viper) (path : String) :
    (newLoggerConf conf path).DisableCaller =
      (if conf.IsSet (rootSegment path ++ ".caller") then
        !conf.GetBool (rootSegment path ++ ".caller")
      else false) := by
  unfold newLoggerConf
  dsimp only
  split <;> split <;> split <;> split <;>
    simp_all [NewDevelopmentConfig, NewProductionConfig]

theorem newLoggerConf_Level_of_parse (conf : Viper) (path : String)
    (lvl : Int) (core : Core)
    (hset : conf.IsSet (path ++ ".level") = true)
    (hparse : ParseAtomicLevel (conf.GetString (path ++ ".level")) = Except.ok lvl)
    (h : GelfStreamZapFactoryNew conf path = NewResult.ok core) :
    core.Level = lvl := by
  unfold GelfStreamZapFactoryNew at h
  dsimp only at h
  rw [if_pos hset, hparse] at h
  exact (newFinish_ok _ _ _ h).2.2.1

/-! ## Claim theorems -/

/-- C1: the spec says a configured `app.version` is injected as a
constant `version` field into every record.  In the code,
`loggerConf.InitialFields` is the nil map left by the profile
constructors, so `loggerConf.InitialFields["version"] = v` panics:
with `app.version` set, `New` panics instead of returning a core. -/
theorem c1_app_version_assignment_panics :
    GelfStreamZapFactoryNew confWithVersion "zap.cores.json" =
      NewResult.panicked "assignment to entry in nil map" := by decide

/-- C2: the spec says `New` never panics and fails only on a malformed
level string or an underlying build failure.  On a configuration that
is valid in every respect the spec admits (parseable level, registered
encoding, boolean caller) but carries `app.version`, `New` panics. -/
theorem c2_new_panics_despite_valid_config :
    GelfStreamZapFactoryNew confValidWithVersion "zap.cores.gelf" =
      NewResult.panicked "assignment to entry in nil map" := by decide

/-- C3: the GELF severity encoder appends exactly the bare integer of
the fixed table — debug→7, info→6, warn→4, error→3, dpanic→0, panic→0,
fatal→0 — to any primitive-array encoder state. -/
theorem c3_gelf_severity_table (encoder : List Primitive) :
    gelfLvlEncoder DebugLevel encoder = encoder ++ [Primitive.int 7] ∧
    gelfLvlEncoder InfoLevel encoder = encoder ++ [Primitive.int 6] ∧
    gelfLvlEncoder WarnLevel encoder = encoder ++ [Primitive.int 4] ∧
    gelfLvlEncoder ErrorLevel encoder = encoder ++ [Primitive.int 3] ∧
    gelfLvlEncoder DPanicLevel encoder = encoder ++ [Primitive.int 0] ∧
    gelfLvlEncoder PanicLevel encoder = encoder ++ [Primitive.int 0] ∧
    gelfLvlEncoder FatalLevel encoder = encoder ++ [Primitive.int 0] := by
  refine ⟨?_, ?_, ?_, ?_, ?_, ?_, ?_⟩ <;>
    simp [gelfLvlEncoder, lvlRelations, DebugLevel, InfoLevel, WarnLevel,
      ErrorLevel, DPanicLevel, PanicLevel, FatalLevel, DebugGelfLvl,
      InformationalGelfLvl, WarningGelfLvl, ErrorGelfLvl, EmergencyGelfLvl]

/-- C4: when `<rootSegment>.stacktrace` is set, stacktrace capture is
disabled iff the string value is exactly the literal `"false"`
(case-sensitive string equality); every other value leaves it
enabled. -/
theorem c4_stacktrace_literal_false_rule (conf : Viper) (path : String)
    (core : Core)
    (hset : conf.IsSet (rootSegment path ++ ".stacktrace") = true)
    (hok : GelfStreamZapFactoryNew conf path = NewResult.ok core) :
    core.DisableStacktrace = true ↔
      conf.GetString (rootSegment path ++ ".stacktrace") = "false" := by
  rw [(new_ok_core conf path core hok).2.2.2,
    newLoggerConf_DisableStacktrace, if_pos hset]
  simp

/-- Witness for C4: with `zap.stacktrace = "yes"` the build succeeds
and stacktrace capture stays enabled, since `"yes"` is not the literal
`"false"`. -/
theorem c4_stacktrace_witness :
    (defaultGelfCore.DisableStacktrace = true ↔
      Viper.GetString ⟨[("zap.stacktrace", ConfValue.str "yes")]⟩
        (rootSegment "zap.cores.json" ++ ".stacktrace") = "false") :=
  c4_stacktrace_literal_false_rule
    ⟨[("zap.stacktrace", ConfValue.str "yes")]⟩ "zap.cores.json"
    defaultGelfCore (by decide) (by decide)

/-- C5: with `<basePath>.level` set, a non-parsing value makes `New`
return an error (no core) that wraps the parse error and names the
offending value; a parsing value becomes the core's minimum level. -/
theorem c5_level_threshold (conf : Viper) (path : String)
    (hset : conf.IsSet (path ++ ".level") = true) :
    (∀ e, ParseAtomicLevel (conf.GetString (path ++ ".level")) = Except.error e →
      GelfStreamZapFactoryNew conf path =
        NewResult.error ("cannot parse log level " ++
          conf.GetString (path ++ ".level") ++ ": " ++ e)) ∧
    (∀ lvl core,
      ParseAtomicLevel (conf.GetString (path ++ ".level")) = Except.ok lvl →
      GelfStreamZapFactoryNew conf path = NewResult.ok core →
      core.Level = lvl) := by
  constructor
  · intro e he
    unfold GelfStreamZapFactoryNew
    dsimp only
    rw [if_pos hset, he]
  · intro lvl core hp hok
    exact newLoggerConf_Level_of_parse conf path lvl core hset hp hok

/-- Witness for C5: `level = "not-a-level"` yields the wrapping error
naming the value, applied at a concrete configuration. -/
theorem c5_level_witness :
    GelfStreamZapFactoryNew
        ⟨[("zap.cores.json.level", ConfValue.str "not-a-level")]⟩
        "zap.cores.json" =
      NewResult.error ("cannot parse log level " ++
        Viper.GetString ⟨[("zap.cores.json.level", ConfValue.str "not-a-level")]⟩
          ("zap.cores.json" ++ ".level") ++
        ": " ++ "unrecognized level: \"not-a-level\"") :=
  (c5_level_threshold
    ⟨[("zap.cores.json.level", ConfValue.str "not-a-level")]⟩
    "zap.cores.json" (by decide)).1
    "unrecognized level: \"not-a-level\"" (by rfl)

/-- C6: every successfully built core carries exactly the GELF
field-name table: `timestamp`, `level`, `_logger`, `_caller`,
`short_message`, `full_message`, with the function field omitted. -/
theorem c6_gelf_field_names (conf : Viper) (path : String) (core : Core)
    (hok : GelfStreamZapFactoryNew conf path = NewResult.ok core) :
    core.EncoderConfig.TimeKey = "timestamp" ∧
    core.EncoderConfig.LevelKey = "level" ∧
    core.EncoderConfig.NameKey = "_logger" ∧
    core.EncoderConfig.CallerKey = "_caller" ∧
    core.EncoderConfig.MessageKey = "short_message" ∧
    core.EncoderConfig.StacktraceKey = "full_message" ∧
    core.EncoderConfig.FunctionKey = OmitKey := by
  rw [(new_ok_core conf path core hok).2.1, newLoggerConf_EncoderConfig]
  exact ⟨rfl, rfl, rfl, rfl, rfl, rfl, rfl⟩

/-- Witness for C6: the empty configuration builds successfully and its
core carries the GELF field names. -/
theorem c6_field_names_witness :
    (defaultGelfCore.EncoderConfig.TimeKey = "timestamp" ∧
      defaultGelfCore.EncoderConfig.LevelKey = "level" ∧
      defaultGelfCore.EncoderConfig.NameKey = "_logger" ∧
      defaultGelfCore.EncoderConfig.CallerKey = "_caller" ∧
      defaultGelfCore.EncoderConfig.MessageKey = "short_message" ∧
      defaultGelfCore.EncoderConfig.StacktraceKey = "full_message" ∧
      defaultGelfCore.EncoderConfig.FunctionKey = OmitKey) :=
  c6_gelf_field_names ⟨[]⟩ "zap.cores.json" defaultGelfCore (by decide)

/-- C7: any level value outside the seven-entry table — the Go map's
missing-key case — encodes as the zero value 0 (Emergency) rather than
failing. -/
theorem c7_unmapped_level_encodes_zero (level : Int)
    (encoder : List Primitive)
    (h : level ≠ DebugLevel ∧ level ≠ InfoLevel ∧ level ≠ WarnLevel ∧
      level ≠ ErrorLevel ∧ level ≠ DPanicLevel ∧ level ≠ PanicLevel ∧
      level ≠ FatalLevel) :
    gelfLvlEncoder level encoder = encoder ++ [Primitive.int 0] := by
  obtain ⟨h1, h2, h3, h4, h5, h6, h7⟩ := h
  unfold gelfLvlEncoder lvlRelations
  rw [if_neg h1, if_neg h2, if_neg h3, if_neg h4, if_neg h5, if_neg h6,
    if_neg h7]

/-- Witness for C7: the out-of-table level 6 encodes as 0. -/
theorem c7_unmapped_witness :
    gelfLvlEncoder 6 [] = [] ++ [Primitive.int 0] :=
  c7_unmapped_level_encodes_zero 6 [] (by decide)

/-- C8: the core's encoding name is the `<basePath>.encoding` string
when that key is set and `"json"` otherwise, while the encoder
configuration — GELF field names with the GELF severity encoder — is
the same either way. -/
theorem c8_encoding_override (conf : Viper) (path : String) (core : Core)
    (hok : GelfStreamZapFactoryNew conf path = NewResult.ok core) :
    core.Encoding =
      (if conf.IsSet (path ++ ".encoding") then
        conf.GetString (path ++ ".encoding")
      else "json") ∧
    core.EncoderConfig = gelfFinalEncoderConfig := by
  have t := new_ok_core conf path core hok
  exact ⟨by rw [t.1, newLoggerConf_Encoding],
    by rw [t.2.1, newLoggerConf_EncoderConfig]⟩

/-- Witness for C8: overriding the encoding to `"console"` changes the
encoding name and nothing in the encoder configuration. -/
theorem c8_encoding_witness :
    (({ defaultGelfCore with Encoding := "console" } : Core).Encoding =
      (if Viper.IsSet ⟨[("zap.cores.json.encoding", ConfValue.str "console")]⟩
          ("zap.cores.json" ++ ".encoding") then
        Viper.GetString ⟨[("zap.cores.json.encoding", ConfValue.str "console")]⟩
          ("zap.cores.json" ++ ".encoding")
      else "json") ∧
      ({ defaultGelfCore with Encoding := "console" } : Core).EncoderConfig =
        gelfFinalEncoderConfig) :=
  c8_encoding_override
    ⟨[("zap.cores.json.encoding", ConfValue.str "console")]⟩ "zap.cores.json"
    { defaultGelfCore with Encoding := "console" } (by decide)

/-- C9: when `<rootSegment>.caller` is set, caller capture is enabled
iff its boolean value is true; when absent, the selected default
profile's caller setting is kept unchanged. -/
theorem c9_caller_flag (conf : Viper) (path : String) (core : Core)
    (hok : GelfStreamZapFactoryNew conf path = NewResult.ok core) :
    (conf.IsSet (rootSegment path ++ ".caller") = true →
      (core.DisableCaller = false ↔
        conf.GetBool (rootSegment path ++ ".caller") = true)) ∧
    (conf.IsSet (rootSegment path ++ ".caller") = false →
      core.DisableCaller =
        (if conf.IsSet (rootSegment path ++ ".development") &&
            conf.GetBool (rootSegment path ++ ".development") then
          NewDevelopmentConfig.DisableCaller
        else NewProductionConfig.DisableCaller)) := by
  rw [(new_ok_core conf path core hok).2.2.1, newLoggerConf_DisableCaller]
  constructor
  · intro hset
    rw [if_pos hset]
    cases conf.GetBool (rootSegment path ++ ".caller") <;> simp
  · intro hset
    rw [if_neg (by simp [hset])]
    simp [NewDevelopmentConfig, NewProductionConfig]

/-- Witness for C9: with `zap.caller = true` the built core has caller
capture enabled. -/
theorem c9_caller_witness :
    ((Viper.IsSet ⟨[("zap.caller", ConfValue.boolean true)]⟩
        (rootSegment "zap.cores.json" ++ ".caller") = true →
      (defaultGelfCore.DisableCaller = false ↔
        Viper.GetBool ⟨[("zap.caller", ConfValue.boolean true)]⟩
          (rootSegment "zap.cores.json" ++ ".caller") = true)) ∧
    (Viper.IsSet ⟨[("zap.caller", ConfValue.boolean true)]⟩
        (rootSegment "zap.cores.json" ++ ".caller") = false →
      defaultGelfCore.DisableCaller =
        (if Viper.IsSet ⟨[("zap.caller", ConfValue.boolean true)]⟩
              (rootSegment "zap.cores.json" ++ ".development") &&
            Viper.GetBool ⟨[("zap.caller", ConfValue.boolean true)]⟩
              (rootSegment "zap.cores.json" ++ ".development") then
          NewDevelopmentConfig.DisableCaller
        else NewProductionConfig.DisableCaller))) :=
  c9_caller_flag ⟨[("zap.caller", ConfValue.boolean true)]⟩ "zap.cores.json"
    defaultGelfCore (by decide)

/-- C10: every successfully built core encodes timestamps as seconds
since the Unix epoch and durations as seconds, independently of the
configuration. -/
theorem c10_time_and_duration_encoders (conf : Viper) (path : String)
    (core : Core)
    (hok : GelfStreamZapFactoryNew conf path = NewResult.ok core) :
    core.EncoderConfig.EncodeTime = TimeEncoderTag.epoch ∧
    core.EncoderConfig.EncodeDuration = DurationEncoderTag.seconds := by
  rw [(new_ok_core conf path core hok).2.1, newLoggerConf_EncoderConfig]
  exact ⟨rfl, rfl⟩

/-- Witness for C10: even under the development profile the time
encoder is epoch and the duration encoder is seconds. -/
theorem c10_encoders_witness :
    (({ defaultGelfCore with Level := DebugLevel } : Core).EncoderConfig.EncodeTime =
        TimeEncoderTag.epoch ∧
      ({ defaultGelfCore with Level := DebugLevel } : Core).EncoderConfig.EncodeDuration =
        DurationEncoderTag.seconds) :=
  c10_time_and_duration_encoders
    ⟨[("zap.development", ConfValue.boolean true)]⟩ "zap.cores.json"
    { defaultGelfCore with Level := DebugLevel } (by decide)

end GozixZap
